import Mathlib

/-!
Verification of the meshbridge bridge-lifecycle manager (`meshbridge.py`).

The Python source is shallowly embedded: each Python function or code block
relevant to the claims becomes a pure Lean definition.  External effects
(the `socat` subprocess, the `stty` call, the zeroconf registrar, the
meshtastic identification library, OS globbing) are modelled as explicit
inputs/outputs: a subprocess is a handle that is either running or exited,
success/failure of external calls is passed in via an environment record,
and the identification session is a function from poll tick to an
observation.
-/

namespace Meshbridge

/-- A spawned subprocess handle (`subprocess.Popen`): `poll()` reports
whether it has exited; the exit can happen at any time outside the
manager's control, so it is part of the modelled state. -/
structure Proc where
  exited : Bool
deriving DecidableEq, Repr

/-- The zeroconf `ServiceInfo` record built by `Bridge._start_mdns`
(lines 125-135): we keep the fields the claims are about, the mDNS
hostname (`server=hostname`) and the TCP port. -/
structure ServiceRec where
  hostname : String
  port : Nat
deriving DecidableEq, Repr

/-- `Bridge.__init__` state (lines 70-77): device path, TCP port, optional
node id string, baud rate, plus the three handles `process`, `zeroconf`
and `service_info`.  The opaque `Zeroconf` object is modelled by a Bool
recording whether `self.zeroconf` is set. -/
structure Bridge where
  device : String
  port : Nat
  node_id : Option String
  baud : Nat
  process : Option Proc
  zeroconf : Bool
  service_info : Option ServiceRec
deriving DecidableEq, Repr

/-- `Bridge(device, port, node_id=..., baud=115200)`: a freshly
constructed bridge has no subprocess and no registration. -/
def Bridge.new (device : String) (port : Nat) (node_id : Option String)
    (baud : Nat) : Bridge :=
  { device := device, port := port, node_id := node_id, baud := baud,
    process := none, zeroconf := false, service_info := none }

/-- `Bridge.is_running` (lines 163-165): `self.process is not None and
self.process.poll() is None`.  A live check of the handle, not a cached
flag. -/
def Bridge.is_running (b : Bridge) : Bool :=
  match b.process with
  | some p => !p.exited
  | none => false

/-- Externally observable actions taken by `Bridge.stop`. -/
inductive Effect where
  | unregister
  | terminate
  | kill
deriving DecidableEq, Repr

/-- `Bridge.stop` (lines 142-161).  First, `if self.zeroconf and
self.service_info:` unregister and clear both; then `if self.process:`
terminate, wait up to the grace period (`exitsInGrace` says whether the
process exited within it; if not it is killed), and clear the handle.
Returns the new state together with the list of effects performed. -/
def Bridge.stop (b : Bridge) (exitsInGrace : Bool) : Bridge × List Effect :=
  let step1 :=
    if b.zeroconf && b.service_info.isSome then
      ({ b with zeroconf := false, service_info := none },
        [Effect.unregister])
    else (b, ([] : List Effect))
  match step1.1.process with
  | some _ =>
      ({ step1.1 with process := none },
        step1.2 ++ Effect.terminate ::
          (if exitsInGrace then [] else [Effect.kill]))
  | none => (step1.1, step1.2)

/-- The spec's single abstract `registration_handle` is present exactly
when the code's pair (`self.zeroconf`, `self.service_info`) passes the
test `stop` itself uses (`if self.zeroconf and self.service_info`). -/
def registrationPresent (b : Bridge) : Bool :=
  b.zeroconf && b.service_info.isSome

/-- Python truthiness of an optional string (`if s:`): present and
non-empty. -/
def optTruthy : Option String → Bool
  | some s => !(s == "")
  | none => false

/-- Outcome of the externals used inside `_start_mdns` (lines 108-140),
by how far the body gets before an exception (all caught by the
`except` at line 138):
`ok` — everything succeeds and `register_service` is called;
`failBeforeZeroconf` — the socket block or `Zeroconf()` raises, nothing
is assigned; `failAtServiceRec` — `self.zeroconf` was assigned but
building the `ServiceInfo` raises; `failAtRegister` — both handles were
assigned but `register_service` raises (nothing is published). -/
inductive MdnsOutcome where
  | ok
  | failBeforeZeroconf
  | failAtServiceRec
  | failAtRegister
deriving DecidableEq, Repr

/-- `self.node_id.replace("!", "")`: removing every occurrence of the
single character `!`. -/
def stripBangs (s : String) : String :=
  String.mk (s.toList.filter (fun c => c != '!'))

/-- `short_id = self.node_id.replace("!", "")[-4:]` (line 113): the last
four characters (the whole string when shorter). -/
def shortId (node_id : String) : String :=
  let s := (stripBangs node_id).toList
  String.mk (s.drop (s.length - 4))

/-- `hostname = f"meshtastic_{short_id}.local."` (line 114). -/
def hostnameFor (node_id : String) : String :=
  "meshtastic_" ++ shortId node_id ++ ".local."

/-- `Bridge._start_mdns` (lines 108-140): derives the hostname from
`self.node_id`, assigns `self.zeroconf` and `self.service_info`, and
registers the record.  Any exception is swallowed (warning only).
Returns the new state and the record actually published (`some` only
when `register_service` succeeded). -/
def Bridge.start_mdns (b : Bridge) (outcome : MdnsOutcome) :
    Bridge × Option ServiceRec :=
  match b.node_id with
  | none => (b, none)
  | some nid =>
    match outcome with
    | .failBeforeZeroconf => (b, none)
    | .failAtServiceRec => ({ b with zeroconf := true }, none)
    | .failAtRegister =>
        ({ b with
            zeroconf := true
            service_info := some ⟨hostnameFor nid, b.port⟩ }, none)
    | .ok =>
        ({ b with
            zeroconf := true
            service_info := some ⟨hostnameFor nid, b.port⟩ },
          some ⟨hostnameFor nid, b.port⟩)

/-- The external outcomes a single `Bridge.start` call can meet:
whether the `stty` call succeeds (line 84, `check=True` raises on
failure), whether `subprocess.Popen` succeeds (line 95), whether the
zeroconf library is importable (`ZEROCONF_AVAILABLE`), and how far
`_start_mdns` gets. -/
structure StartEnv where
  sttyOk : Bool
  spawnOk : Bool
  zeroconfAvailable : Bool
  mdns : MdnsOutcome
deriving DecidableEq, Repr

/-- `Bridge.start` (lines 79-106).  `stty` failure or spawn failure is
caught by the `except` at line 104 and yields `False`; on spawn success
`self.process` is set, then `if ZEROCONF_AVAILABLE and self.node_id:`
runs `_start_mdns` (which swallows its own failures), and `True` is
returned regardless of the mDNS outcome.  Returns (new state, published
service record, return value). -/
def Bridge.start (b : Bridge) (env : StartEnv) :
    Bridge × Option ServiceRec × Bool :=
  if !env.sttyOk then (b, none, false)
  else if !env.spawnOk then (b, none, false)
  else
    let b1 := { b with process := some ⟨false⟩ }
    if env.zeroconfAvailable && optTruthy b1.node_id then
      let m := b1.start_mdns env.mdns
      (m.1, m.2, true)
    else (b1, none, true)

/-- `used_ports = {b.port for b in bridges if b.is_running()}`
(line 354) — the ports of the bridges whose liveness check passes.
This is also §3's "occupied ports" derived view. -/
def occupiedPorts (bridges : List Bridge) : List Nat :=
  (bridges.filter Bridge.is_running).map Bridge.port

/-- The `while port in used_ports: port += 1` loop of
`get_next_available_port` (lines 356-357), with explicit fuel.  The
Python loop terminates because `used_ports` is finite; fuel
`used.length + 1` is enough, as `nextFreeFrom_spec` proves. -/
def nextFreeFrom (used : List Nat) : Nat → Nat → Nat
  | p, 0 => p
  | p, fuel + 1 => if p ∈ used then nextFreeFrom used (p + 1) fuel else p

/-- `get_next_available_port(start_port=4403, bridges=[])` (lines
352-358). -/
def get_next_available_port (start_port : Nat) (bridges : List Bridge) :
    Nat :=
  let used := occupiedPorts bridges
  nextFreeFrom used start_port (used.length + 1)

/-- `SerialDevice` (lines 47-53): `node_name` defaults to the falsy `""`,
modelled as `none`. -/
structure SerialDevice where
  path : String
  description : String
  node_name : Option String
deriving DecidableEq, Repr

/-- The two platform branches of `find_serial_devices` (line 293:
`if sys.platform == "darwin": ... else: ...`). -/
inductive Platform where
  | darwin
  | linux
deriving DecidableEq, Repr

/-- Membership of a substring (Python's `"SLAB" in path`): `splitOn`
yields more than one piece exactly when the pattern occurs. -/
def strContains (s pat : String) : Bool :=
  (s.splitOn pat).length != 1

/-- Python's `path.startswith(pre)`, over the character lists. -/
def strStartsWith (s pre : String) : Bool :=
  pre.toList.isPrefixOf s.toList

/-- `skip_pattern = re.compile(r"/dev/cu\.usbmodem[A-Z0-9]{10,}")`
tested with `.match` (anchored at the start, line 307): the path starts
with `/dev/cu.usbmodem` followed by at least 10 consecutive characters
from `[A-Z0-9]`. -/
def skip_pattern_match (path : String) : Bool :=
  strStartsWith path "/dev/cu.usbmodem" &&
    10 ≤ (((path.toList.drop "/dev/cu.usbmodem".toList.length).takeWhile
      (fun c => (('A' ≤ c && c ≤ 'Z') || ('0' ≤ c && c ≤ '9')))).length)

/-- Description lookup of the darwin branch (lines 314-321). -/
def descDarwin (path : String) : String :=
  if strContains path "SLAB" then "CP210x USB-Serial"
  else if strContains path "usbmodem" then "Native USB"
  else if strContains path "usbserial" then "USB Serial (CH340/FTDI)"
  else "USB Serial"

/-- Description lookup of the Linux branch (lines 329-333). -/
def descLinux (path : String) : String :=
  if strContains path "ACM" then "Native USB (ACM)"
  else if strContains path "USB" then "USB Serial Adapter"
  else "USB Serial"

/-- The darwin enumeration loop (lines 297-322): `candidates` is the
concatenation of the glob results for the four patterns in order.  A
path is skipped when it is in `skip_devices`, skipped when the
exclusion regex matches, and appended only when it starts with
`/dev/cu.` (line 314). -/
def scanDarwin (candidates skip_devices : List String) :
    List SerialDevice :=
  candidates.filterMap fun path =>
    if path ∈ skip_devices then none
    else if skip_pattern_match path then none
    else if strStartsWith path "/dev/cu." then
      some ⟨path, descDarwin path, none⟩
    else none

/-- The Linux enumeration loop (lines 324-334): every glob match is
appended; neither `skip_devices` nor the exclusion regex is consulted. -/
def scanLinux (candidates : List String) : List SerialDevice :=
  candidates.map fun path => ⟨path, descLinux path, none⟩

/-- The probing pass of `find_serial_devices` (lines 336-347): when
`query_names and MESHTASTIC_AVAILABLE and devices`, each device gets
`node_name` set to the (truthy) query result.  `probeFn` stands for
`query_meshtastic_info(device.path, ...)`. -/
def attachNames (queryNames meshtasticAvailable : Bool)
    (probeFn : String → Option String) (devs : List SerialDevice) :
    List SerialDevice :=
  if queryNames && meshtasticAvailable && !devs.isEmpty then
    devs.map fun d =>
      match optTruthy (probeFn d.path), probeFn d.path with
      | true, some s => { d with node_name := some s }
      | _, _ => d
  else devs

/-- `find_serial_devices(query_names=True, skip_devices=None)`
(lines 280-349), with the OS glob results passed in as `candidates`. -/
def find_serial_devices (platform : Platform)
    (candidates skip_devices : List String)
    (queryNames meshtasticAvailable : Bool)
    (probeFn : String → Option String) : List SerialDevice :=
  let devs :=
    match platform with
    | .darwin => scanDarwin candidates skip_devices
    | .linux => scanLinux candidates
  attachNames queryNames meshtasticAvailable probeFn devs

/-- `f"!{my_node_num:08x}"` (line 223): `!` followed by the lowercase
hex rendering of the node number, zero-padded to at least 8 digits. -/
def renderNodeId (n : Nat) : String :=
  let ds := Nat.toDigits 16 n
  "!" ++ String.mk (List.replicate (8 - ds.length) '0' ++ ds)

/-- What one poll of the meshtastic interface can observe
(lines 219-253).  `my_node_num = some n` means `interface.myInfo` is
present with a `my_node_num` attribute holding `n` (the code further
requires truthiness, i.e. `n ≠ 0`).  The four owner sources are the
attributes probed at lines 229-253; a Python-falsy (absent or empty)
attribute is `none`. -/
structure IfaceObs where
  my_node_num : Option Nat
  user_longName : Option String
  user_shortName : Option String
  localNode_owner : Option String
  localNode_longName : Option String
deriving DecidableEq, Repr

/-- The owner-resolution chain of lines 226-253: `myInfo.user.longName`,
else `myInfo.user.shortName`, else `localNode.owner`, else
`localNode.longName`, each taken only when truthy. -/
def resolveOwner (o : IfaceObs) : Option String :=
  match optTruthy o.user_longName, o.user_longName with
  | true, some s => some s
  | _, _ =>
    match optTruthy o.user_shortName, o.user_shortName with
    | true, some s => some s
    | _, _ =>
      match optTruthy o.localNode_owner, o.localNode_owner with
      | true, some s => some s
      | _, _ =>
        match optTruthy o.localNode_longName, o.localNode_longName with
        | true, some s => some s
        | _, _ => none

/-- One loop iteration's interaction with the external library: either
an observation of the interface state, or the library raising an
exception at that point (caught only by the outer `except` at line
274). -/
inductive PollEvent where
  | obs (o : IfaceObs)
  | raise
deriving DecidableEq, Repr

/-- How the polling loop of `query_meshtastic_info` ended:
`found k s` — an early `return` at tick `k` with string `s` (lines
256-263); `timeout` — the `while` condition failed; `raised k` — an
exception at tick `k` escaped to the outer handler. -/
inductive ProbeOut where
  | found (tick : Nat) (s : String)
  | timeout
  | raised (tick : Nat)
deriving DecidableEq, Repr

/-- The `while time.time() - start_time < timeout` polling loop
(lines 217-265), discretised at the `time.sleep(0.2)` granularity:
iteration `k` runs at elapsed time `0.2·k`, so with the defaults the
loop condition is `k < 50` (timeout 10) and the owner-grace test
`time.time() - start_time > 5` (line 261) is `25 < k`.  `fuel` is the
number of loop iterations still allowed, i.e. `timeoutTicks - k`. -/
def probeLoop (session : Nat → PollEvent) (graceTick : Nat) :
    Nat → Nat → ProbeOut
  | _, 0 => ProbeOut.timeout
  | k, fuel + 1 =>
    match session k with
    | .raise => ProbeOut.raised k
    | .obs o =>
      match o.my_node_num with
      | some n =>
        if n = 0 then probeLoop session graceTick (k + 1) fuel
        else
          match resolveOwner o with
          | some owner =>
              ProbeOut.found k (renderNodeId n ++ " (" ++ owner ++ ")")
          | none =>
            if graceTick < k then ProbeOut.found k (renderNodeId n)
            else probeLoop session graceTick (k + 1) fuel
      | none => probeLoop session graceTick (k + 1) fuel

/-- Observable outcome of one `query_meshtastic_info` call: the return
value, whether the `SerialInterface` session was successfully opened,
whether `interface.close()` was called before returning, and the tick
at which an early return happened. -/
structure ProbeRun where
  result : Option String
  opened : Bool
  closed : Bool
  retTick : Option Nat
deriving DecidableEq, Repr

/-- `query_meshtastic_info(device_path, timeout=10, verbose=False)`
(lines 198-277).  `openOk` is whether the `SerialInterface` constructor
(lines 207-212) succeeds; `session` gives each poll's observation.
The three deliberate return paths (owner found, line 257; grace
expired, line 262; loop timeout, line 268) call `interface.close()`
first; the `except Exception` handler (lines 274-277) returns `None`
without closing. -/
def query_meshtastic_info (openOk : Bool) (session : Nat → PollEvent)
    (timeoutTicks graceTick : Nat) : ProbeRun :=
  if !openOk then
    { result := none, opened := false, closed := false, retTick := none }
  else
    match probeLoop session graceTick 0 timeoutTicks with
    | .found k s =>
        { result := some s, opened := true, closed := true,
          retTick := some k }
    | .timeout =>
        { result := none, opened := true, closed := true,
          retTick := none }
    | .raised k =>
        { result := none, opened := true, closed := false,
          retTick := some k }

/-- Outcome of the bridge-creation branch of `main` (lines 570-631). -/
inductive CreateOutcome where
  | alreadyBridged (conflictPort : Nat)
  | started (newBridges : List Bridge)
  | startFailed (bridges : List Bridge)
deriving DecidableEq, Repr

/-- The registry's create-and-start step in `main` (lines 570-631):
if the chosen device's path is in `{b.device for b in bridges if
b.is_running()}` (lines 521, 576), report "Bridge already running for
this device on port <existing_bridge.port>" (lines 577-589); otherwise
take the requested custom port, or `get_next_available_port(bridges=
bridges)` when none was entered (lines 592-605); construct
`Bridge(device.path, port, node_id=device.node_name)` and call
`start()`, appending to the collection only on success (lines
609-631).  No check of the requested port against occupied ports is
performed. -/
def create_and_start (bridges : List Bridge) (path : String)
    (node_id : Option String) (customPort : Option Nat)
    (env : StartEnv) : CreateOutcome :=
  match bridges.filter (fun b => b.device == path && b.is_running) with
  | b0 :: _ => .alreadyBridged b0.port
  | [] =>
    let port :=
      match customPort with
      | some p => p
      | none => get_next_available_port 4403 bridges
    let b := Bridge.new path port node_id 115200
    let r := b.start env
    if r.2.2 then .started (bridges ++ [r.1]) else .startFailed bridges

/-- `if bridge.start(): bridges.append(bridge)` — the collection after
one create-and-start step, as the rest of `main` sees it. -/
def registryAfter (bridges : List Bridge) (outcome : CreateOutcome) :
    List Bridge :=
  match outcome with
  | .alreadyBridged _ => bridges
  | .started nb => nb
  | .startFailed old => old

/-- The "stop all bridges" branch of `main` (lines 560-569):
`for bridge in bridges: if bridge.is_running(): bridge.stop()` followed
by `bridges.clear()`.  The first component is the collection as the
loop leaves it (just before the clear), the second is the collection
after `bridges.clear()`. -/
def stop_all (bridges : List Bridge) : List Bridge × List Bridge :=
  (bridges.map fun b => if b.is_running then (b.stop true).1 else b, [])

/-! ## Helper lemmas -/

/-- With enough fuel, the port-search loop returns the least value `≥
start` outside `used`: the result is free, at least `start`, and every
value strictly below it (and `≥ start`) is occupied. -/
theorem nextFreeFrom_spec (used : List Nat) :
    ∀ fuel start, (∃ p, start ≤ p ∧ p < start + fuel ∧ p ∉ used) →
      nextFreeFrom used start fuel ∉ used ∧
      start ≤ nextFreeFrom used start fuel ∧
      ∀ q, start ≤ q → q < nextFreeFrom used start fuel → q ∈ used := by
  intro fuel
  induction fuel with
  | zero =>
    intro start h
    obtain ⟨p, hp1, hp2, _⟩ := h
    omega
  | succ n ih =>
    intro start hex
    by_cases hs : start ∈ used
    · have hex' : ∃ p, start + 1 ≤ p ∧ p < (start + 1) + n ∧ p ∉ used := by
        obtain ⟨p, hp1, hp2, hp3⟩ := hex
        refine ⟨p, ?_, by omega, hp3⟩
        rcases Nat.eq_or_lt_of_le hp1 with h | h
        · exact absurd (h ▸ hs) hp3
        · omega
      have hrec := ih (start + 1) hex'
      simp only [nextFreeFrom, if_pos hs]
      refine ⟨hrec.1, by omega, ?_⟩
      intro q hq1 hq2
      rcases Nat.eq_or_lt_of_le hq1 with h | h
      · exact h ▸ hs
      · exact hrec.2.2 q (by omega) hq2
    · simp only [nextFreeFrom, if_neg hs]
      exact ⟨hs, le_refl _, fun q hq1 hq2 => absurd hq2 (by omega)⟩

/-- Pigeonhole: among the `used.length + 1` consecutive integers from
`start` there is one outside `used`. -/
theorem exists_free_above (used : List Nat) (start : Nat) :
    ∃ p, start ≤ p ∧ p < start + (used.length + 1) ∧ p ∉ used := by
  by_contra h
  push_neg at h
  have hsub : Finset.Icc start (start + used.length) ⊆ used.toFinset := by
    intro p hp
    rw [Finset.mem_Icc] at hp
    rw [List.mem_toFinset]
    exact h p hp.1 (by omega)
  have hcard := Finset.card_le_card hsub
  rw [Nat.card_Icc] at hcard
  have hlen := used.toFinset_card_le
  omega

/-- The allocator meets its contract: free, at least the base, and
everything below occupied. -/
theorem get_next_available_port_spec (start : Nat)
    (bridges : List Bridge) :
    get_next_available_port start bridges ∉ occupiedPorts bridges ∧
    start ≤ get_next_available_port start bridges ∧
    ∀ q, start ≤ q → q < get_next_available_port start bridges →
      q ∈ occupiedPorts bridges := by
  have h := nextFreeFrom_spec (occupiedPorts bridges)
    ((occupiedPorts bridges).length + 1) start
    (exists_free_above (occupiedPorts bridges) start)
  exact h

/-- `stop` always leaves the subprocess handle cleared. -/
theorem Bridge.stop_process_eq (b : Bridge) (g : Bool) :
    (b.stop g).1.process = none := by
  obtain ⟨dev, port, nid, baud, proc, zc, si⟩ := b
  cases proc <;> cases zc <;> cases si <;> simp [Bridge.stop]

/-- A stopped bridge's liveness check fails. -/
theorem Bridge.stop_not_running (b : Bridge) (g : Bool) :
    (b.stop g).1.is_running = false := by
  unfold Bridge.is_running
  rw [Bridge.stop_process_eq]

/-! ## Claim C2 -/

/-- Claim C2: for every base port and list of bridges,
`get_next_available_port` returns the smallest integer `≥ base` that is
not the port of any bridge whose liveness check passes; in particular
the result is never a member of the occupied-ports set. -/
theorem C2_next_available_port (base : Nat) (bridges : List Bridge) :
    get_next_available_port base bridges ∉ occupiedPorts bridges ∧
    base ≤ get_next_available_port base bridges ∧
    ∀ p, base ≤ p → p ∉ occupiedPorts bridges →
      get_next_available_port base bridges ≤ p := by
  obtain ⟨h1, h2, h3⟩ := get_next_available_port_spec base bridges
  refine ⟨h1, h2, ?_⟩
  intro p hp hpn
  by_contra hlt
  push_neg at hlt
  exact hpn (h3 p hp hlt)

/-- Two live bridges on 4403 and 4405 and a dead one on 4404: used for
concrete instantiations. -/
def demoBridges : List Bridge :=
  [{ Bridge.new "/dev/cu.usbserial-1410" 4403 none 115200 with
      process := some ⟨false⟩ },
   { Bridge.new "/dev/cu.usbserial-1420" 4404 none 115200 with
      process := some ⟨true⟩ },
   { Bridge.new "/dev/cu.usbserial-1430" 4405 none 115200 with
      process := some ⟨false⟩ }]

/-- Witness for C2: on `demoBridges` (live ports 4403 and 4405, dead
4404) the allocator starting at 4403 picks a free port that is at most
4404 — i.e. exactly the dead bridge's freed port. -/
theorem C2_witness :
    get_next_available_port 4403 demoBridges ∉ occupiedPorts demoBridges ∧
    get_next_available_port 4403 demoBridges ≤ 4404 := by
  obtain ⟨h1, _, h3⟩ := C2_next_available_port 4403 demoBridges
  exact ⟨h1, h3 4404 (by decide) (by decide)⟩

/-! ## Claim C5 -/

/-- Claim C5: `stop` is idempotent.  For every bridge state, a second
`stop` (with any grace outcomes) returns exactly the state the first
left, performs no further effects, and after the first `stop` the
subprocess handle is cleared, the bridge is not running, and the
registration handle is no longer present. -/
theorem C5_stop_idempotent (b : Bridge) (g1 g2 : Bool) :
    ((b.stop g1).1.stop g2) = ((b.stop g1).1, []) ∧
    (b.stop g1).1.process = none ∧
    (b.stop g1).1.is_running = false ∧
    registrationPresent (b.stop g1).1 = false := by
  obtain ⟨dev, port, nid, baud, proc, zc, si⟩ := b
  cases proc <;> cases zc <;> cases si <;>
    simp [Bridge.stop, Bridge.is_running, registrationPresent]

/-! ## Claim C4 -/

/-- A bridge whose subprocess has already exited but whose mDNS
registration is still held. -/
def deadRegisteredBridge : Bridge :=
  { Bridge.new "/dev/cu.usbserial-1410" 4403 (some "!aabbccdd") 115200 with
      process := some ⟨true⟩
      zeroconf := true
      service_info := some ⟨"meshtastic_ccdd.local.", 4403⟩ }

/-- Counterexample to Claim C4 as stated: on a registry holding one
bridge whose subprocess has exited but which still holds a
registration, the stop-all loop leaves the bridge completely untouched
(its registration is not released), although invoking `stop` on it
would have changed its state — so `stop()` is not invoked on every
bridge regardless of liveness. -/
theorem C4_counterexample :
    registrationPresent deadRegisteredBridge = true ∧
    (stop_all [deadRegisteredBridge]).1 = [deadRegisteredBridge] ∧
    (deadRegisteredBridge.stop true).1 ≠ deadRegisteredBridge := by
  refine ⟨rfl, rfl, by decide⟩

/-- Claim C4 as amended: the stop-all branch invokes `stop()` only on
the bridges whose liveness check passes at that moment — a bridge whose
subprocess has already exited is left untouched (its registration, if
any, is not released) — and afterwards the collection is cleared; every
bridge processed by the loop ends up not running. -/
theorem C4_stop_all_amended (bridges : List Bridge) :
    (stop_all bridges).2 = [] ∧
    (∀ c ∈ (stop_all bridges).1, c.is_running = false) ∧
    (∀ b ∈ bridges, b.is_running = true →
      (b.stop true).1 ∈ (stop_all bridges).1) ∧
    (∀ b ∈ bridges, b.is_running = false → b ∈ (stop_all bridges).1) := by
  refine ⟨rfl, ?_, ?_, ?_⟩
  · intro c hc
    simp only [stop_all, List.mem_map] at hc
    obtain ⟨b, hb, rfl⟩ := hc
    by_cases hr : b.is_running = true
    · simp [hr, Bridge.stop_not_running]
    · simp only [Bool.not_eq_true] at hr
      simp [hr]
  · intro b hb hr
    simp only [stop_all, List.mem_map]
    exact ⟨b, hb, by simp [hr]⟩
  · intro b hb hr
    simp only [stop_all, List.mem_map]
    exact ⟨b, hb, by simp [hr]⟩

/-- A running bridge used in concrete instantiations. -/
def liveBridgeA : Bridge :=
  { Bridge.new "/dev/cu.usbserial-1410" 4403 none 115200 with
      process := some ⟨false⟩ }

/-- Witness for the amended C4: on a registry with one running bridge
and one dead-but-registered bridge, stop-all clears the collection, the
running bridge got stopped, and the dead one passed through unchanged. -/
theorem C4_witness :
    (stop_all [liveBridgeA, deadRegisteredBridge]).2 = [] ∧
    (liveBridgeA.stop true).1 ∈
      (stop_all [liveBridgeA, deadRegisteredBridge]).1 ∧
    deadRegisteredBridge ∈
      (stop_all [liveBridgeA, deadRegisteredBridge]).1 := by
  obtain ⟨h1, _, h3, h4⟩ :=
    C4_stop_all_amended [liveBridgeA, deadRegisteredBridge]
  exact ⟨h1, h3 liveBridgeA (by decide) (by decide),
    h4 deadRegisteredBridge (by decide) (by decide)⟩

/-! ## Claim C8 -/

/-- `_start_mdns` never touches the subprocess handle. -/
theorem Bridge.start_mdns_process (b : Bridge) (o : MdnsOutcome) :
    (b.start_mdns o).1.process = b.process := by
  cases hnid : b.node_id <;> cases o <;> simp [Bridge.start_mdns, hnid]

/-- `_start_mdns` never changes the device path. -/
theorem Bridge.start_mdns_device (b : Bridge) (o : MdnsOutcome) :
    (b.start_mdns o).1.device = b.device := by
  cases hnid : b.node_id <;> cases o <;> simp [Bridge.start_mdns, hnid]

/-- `_start_mdns` never changes the TCP port. -/
theorem Bridge.start_mdns_port (b : Bridge) (o : MdnsOutcome) :
    (b.start_mdns o).1.port = b.port := by
  cases hnid : b.node_id <;> cases o <;> simp [Bridge.start_mdns, hnid]

/-- When both external calls succeed, `start` returns `True` (whatever
the mDNS outcome) and the resulting state has the spawned handle and
unchanged device/port. -/
theorem Bridge.start_ok_fields (b : Bridge) (env : StartEnv)
    (h1 : env.sttyOk = true) (h2 : env.spawnOk = true) :
    (b.start env).2.2 = true ∧
    (b.start env).1.device = b.device ∧
    (b.start env).1.port = b.port ∧
    (b.start env).1.process = some ⟨false⟩ := by
  obtain ⟨stty, spawn, zca, m⟩ := env
  simp only at h1 h2
  subst h1
  subst h2
  by_cases h : (zca && optTruthy b.node_id) = true
  · simp [Bridge.start, h, Bridge.start_mdns_process,
      Bridge.start_mdns_device, Bridge.start_mdns_port]
  · simp [Bridge.start, h]

/-- The collection update of `main` lines 611-612: `if bridge.start():
bridges.append(bridge)`. -/
def appendIfStarted (bridges : List Bridge) (b : Bridge)
    (env : StartEnv) : List Bridge :=
  let r := b.start env
  if r.2.2 then bridges ++ [r.1] else bridges

/-- Claim C8: for a freshly constructed bridge, `start()` succeeds if
and only if the serial-line configuration and the subprocess spawn both
succeed — the mDNS outcome never affects the return value; on failure
no subprocess handle is set, the bridge is not observable as live, and
the registry collection is left unchanged; on success the bridge is
live. -/
theorem C8_start_success (device : String) (port : Nat)
    (nid : Option String) (baud : Nat) (env : StartEnv)
    (bridges : List Bridge) :
    (((Bridge.new device port nid baud).start env).2.2
        = (env.sttyOk && env.spawnOk)) ∧
    ((env.sttyOk && env.spawnOk) = false →
      ((Bridge.new device port nid baud).start env).1.process = none ∧
      ((Bridge.new device port nid baud).start env).1.is_running = false ∧
      appendIfStarted bridges (Bridge.new device port nid baud) env
        = bridges) ∧
    ((env.sttyOk && env.spawnOk) = true →
      ((Bridge.new device port nid baud).start env).1.is_running
        = true) := by
  rcases henv : env with ⟨stty, spawn, zca, m⟩
  cases stty
  · simp [Bridge.start, Bridge.new, appendIfStarted, Bridge.is_running]
  · cases spawn
    · simp [Bridge.start, Bridge.new, appendIfStarted, Bridge.is_running]
    · have hfields := Bridge.start_ok_fields (Bridge.new device port nid baud)
        ⟨true, true, zca, m⟩ rfl rfl
      refine ⟨by simp [hfields.1], by intro h; exact absurd h (by simp), ?_⟩
      intro _
      unfold Bridge.is_running
      rw [hfields.2.2.2]
      rfl

/-- Witness for C8: a failing spawn (`spawnOk = false`) yields `False`
and leaves the registry empty. -/
theorem C8_witness :
    ((Bridge.new "/dev/cu.usbserial-1410" 4403 none 115200).start
        ⟨true, false, false, .ok⟩).2.2 = false ∧
    appendIfStarted [] (Bridge.new "/dev/cu.usbserial-1410" 4403 none 115200)
        ⟨true, false, false, .ok⟩ = [] := by
  obtain ⟨h1, h2, _⟩ := C8_start_success "/dev/cu.usbserial-1410" 4403
    none 115200 ⟨true, false, false, .ok⟩ []
  exact ⟨h1, (h2 rfl).2.2⟩

/-! ## Claims C3 and C10 — the scanner -/

/-- The probing pass only fills in `node_name`; the sequence of paths is
untouched. -/
theorem attachNames_paths (q m : Bool) (pf : String → Option String)
    (devs : List SerialDevice) :
    (attachNames q m pf devs).map SerialDevice.path
      = devs.map SerialDevice.path := by
  unfold attachNames
  split
  · rw [List.map_map]
    apply List.map_congr_left
    intro d _
    show SerialDevice.path (match optTruthy (pf d.path), pf d.path with
      | true, some s => { d with node_name := some s }
      | _, _ => d) = d.path
    cases h1 : optTruthy (pf d.path) <;> cases h2 : pf d.path <;> rfl
  · rfl

/-- Every device the darwin branch emits came from a candidate path
that survived all three drop rules. -/
theorem scanDarwin_mem (candidates skip_devices : List String)
    (d : SerialDevice) (hd : d ∈ scanDarwin candidates skip_devices) :
    d.path ∈ candidates ∧ d.path ∉ skip_devices ∧
    skip_pattern_match d.path = false ∧
    strStartsWith d.path "/dev/cu." = true := by
  rw [scanDarwin, List.mem_filterMap] at hd
  obtain ⟨a, ha, hfa⟩ := hd
  by_cases h1 : a ∈ skip_devices
  · simp [h1] at hfa
  · by_cases h2 : skip_pattern_match a = true
    · simp [h1, h2] at hfa
    · by_cases h3 : strStartsWith a "/dev/cu." = true
      · simp only [h1, h2, h3, if_neg, if_pos, ite_true, ite_false,
          Bool.false_eq_true, if_false, Option.some.injEq] at hfa
        rw [← hfa]
        simp only [Bool.not_eq_true] at h2
        exact ⟨ha, h1, h2, h3⟩
      · simp [h1, h2, h3] at hfa

/-- Counterexample to Claim C3 as stated: on Linux the exclude-set is
ignored — a candidate path that is in the exclude-set is still returned
by the scan. -/
theorem C3_counterexample :
    "/dev/ttyUSB0" ∈
      (find_serial_devices .linux ["/dev/ttyUSB0"] ["/dev/ttyUSB0"]
        false false (fun _ => none)).map SerialDevice.path := by
  decide

/-- Claim C3 as amended: on macOS (the darwin branch) the scan drops
every path in the exclude-set and every path matching the configured
exclusion pattern; on Linux neither filter is applied — every
enumerated candidate path appears in the result. -/
theorem C3_scan_filter_amended (candidates skip_devices : List String)
    (q m : Bool) (pf : String → Option String) (p : String) :
    ((p ∈ skip_devices ∨ skip_pattern_match p = true) →
      p ∉ (find_serial_devices .darwin candidates skip_devices q m
        pf).map SerialDevice.path) ∧
    (find_serial_devices .linux candidates skip_devices q m pf).map
      SerialDevice.path = candidates := by
  constructor
  · intro hp hmem
    rw [find_serial_devices] at hmem
    rw [attachNames_paths] at hmem
    rw [List.mem_map] at hmem
    obtain ⟨d, hd, rfl⟩ := hmem
    obtain ⟨_, hns, hnp, _⟩ := scanDarwin_mem candidates skip_devices d hd
    rcases hp with h | h
    · exact hns h
    · rw [hnp] at h
      exact absurd h (by simp)
  · rw [find_serial_devices]
    rw [attachNames_paths]
    rw [scanLinux, List.map_map]
    exact List.map_id candidates

/-- Witness for the amended C3: a concrete excluded path is absent from
a darwin scan that enumerated it. -/
theorem C3_witness :
    "/dev/cu.usbserial-1410" ∉
      (find_serial_devices .darwin
        ["/dev/cu.usbserial-1410", "/dev/cu.usbserial-1420"]
        ["/dev/cu.usbserial-1410"] false false
        (fun _ => none)).map SerialDevice.path := by
  exact (C3_scan_filter_amended
    ["/dev/cu.usbserial-1410", "/dev/cu.usbserial-1420"]
    ["/dev/cu.usbserial-1410"] false false (fun _ => none)
    "/dev/cu.usbserial-1410").1 (Or.inl (by decide))

/-- Claim C10: every path the darwin scan returns starts with
`/dev/cu.` — a candidate that does not (in particular any `/dev/tty.*`
glob match) is enumerated but never included in the result. -/
theorem C10_darwin_cu_only (candidates skip_devices : List String)
    (q m : Bool) (pf : String → Option String) (p : String)
    (hp : p ∈ (find_serial_devices .darwin candidates skip_devices q m
      pf).map SerialDevice.path) :
    strStartsWith p "/dev/cu." = true := by
  rw [find_serial_devices] at hp
  rw [attachNames_paths] at hp
  rw [List.mem_map] at hp
  obtain ⟨d, hd, rfl⟩ := hp
  exact (scanDarwin_mem candidates skip_devices d hd).2.2.2

/-- Witness for C10: with a `tty` and a `cu` candidate enumerated, the
included `cu` path satisfies the prefix property, and the `tty`
candidate cannot be in the result since its prefix check is false. -/
theorem C10_witness :
    strStartsWith "/dev/cu.usbserial-1410" "/dev/cu." = true ∧
    "/dev/tty.usbserial-1410" ∉
      (find_serial_devices .darwin
        ["/dev/tty.usbserial-1410", "/dev/cu.usbserial-1410"] [] false
        false (fun _ => none)).map SerialDevice.path := by
  constructor
  · exact C10_darwin_cu_only
      ["/dev/tty.usbserial-1410", "/dev/cu.usbserial-1410"] [] false
      false (fun _ => none) "/dev/cu.usbserial-1410" (by decide)
  · intro hmem
    have := C10_darwin_cu_only
      ["/dev/tty.usbserial-1410", "/dev/cu.usbserial-1410"] [] false
      false (fun _ => none) "/dev/tty.usbserial-1410" hmem
    exact absurd this (by decide)

/-! ## Claim C1 -/

/-- The start environment of an ordinary successful creation, with the
zeroconf library absent. -/
def envPlain : StartEnv := ⟨true, true, false, .ok⟩

/-- Counterexample to Claim C1 as stated: the registry holds one live
bridge on port 4403; a creation request for a *different* device path
with the custom port 4403 — a port held by a live bridge — is accepted,
not rejected with "port in use": the outcome is a started bridge, and
afterwards two live bridges hold port 4403 simultaneously. -/
theorem C1_counterexample :
    liveBridgeA.is_running = true ∧ liveBridgeA.port = 4403 ∧
    create_and_start [liveBridgeA] "/dev/cu.usbserial-1420" none
        (some 4403) envPlain
      = CreateOutcome.started [liveBridgeA,
          { Bridge.new "/dev/cu.usbserial-1420" 4403 none 115200 with
              process := some ⟨false⟩ }] ∧
    occupiedPorts [liveBridgeA,
        { Bridge.new "/dev/cu.usbserial-1420" 4403 none 115200 with
            process := some ⟨false⟩ }]
      = [4403, 4403] := by
  exact ⟨rfl, rfl, by decide, by decide⟩

/-- Claim C1 as amended: creation is rejected exactly when the requested
device path is held by a live bridge, and the rejection reports that
bridge's port.  No port-in-use check exists: when the path is free the
request is never rejected, whatever port is requested; with no custom
port the auto-assigned port is the allocator's result, which is not
held by any live bridge — so paths and ports held only by stopped
bridges are re-accepted. -/
theorem C1_create_amended (bridges : List Bridge) (path : String)
    (nid : Option String) (customPort : Option Nat) (env : StartEnv) :
    ((∃ b ∈ bridges, b.device = path ∧ b.is_running = true) →
      ∃ b0 ∈ bridges, b0.device = path ∧ b0.is_running = true ∧
        create_and_start bridges path nid customPort env
          = CreateOutcome.alreadyBridged b0.port) ∧
    ((∀ b ∈ bridges, b.device = path → b.is_running = false) →
      (∀ p, create_and_start bridges path nid customPort env
          ≠ CreateOutcome.alreadyBridged p) ∧
      (customPort = none → env.sttyOk = true → env.spawnOk = true →
        ∃ b1, create_and_start bridges path nid customPort env
            = CreateOutcome.started (bridges ++ [b1]) ∧
          b1.device = path ∧ b1.is_running = true ∧
          b1.port = get_next_available_port 4403 bridges ∧
          b1.port ∉ occupiedPorts bridges)) := by
  constructor
  · rintro ⟨b, hb, hdev, hrun⟩
    have hbf : b ∈ bridges.filter
        (fun b => b.device == path && b.is_running) :=
      List.mem_filter.mpr ⟨hb, by simp [hdev, hrun]⟩
    cases hf : bridges.filter (fun b => b.device == path && b.is_running)
      with
    | nil => rw [hf] at hbf; exact absurd hbf (List.not_mem_nil b)
    | cons b0 tl =>
      have hb0 : b0 ∈ bridges.filter
          (fun b => b.device == path && b.is_running) := by
        rw [hf]; exact List.mem_cons_self b0 tl
      have hb0' := List.mem_filter.mp hb0
      have hb0dev : b0.device = path := by
        have := hb0'.2
        simp only [Bool.and_eq_true, beq_iff_eq] at this
        exact this.1
      have hb0run : b0.is_running = true := by
        have := hb0'.2
        simp only [Bool.and_eq_true, beq_iff_eq] at this
        exact this.2
      refine ⟨b0, hb0'.1, hb0dev, hb0run, ?_⟩
      simp only [create_and_start]
      rw [hf]
  · intro hno
    have hf : bridges.filter (fun b => b.device == path && b.is_running)
        = [] := by
      rw [List.filter_eq_nil_iff]
      intro a ha
      simp only [Bool.and_eq_true, beq_iff_eq, not_and]
      intro hdev
      rw [hno a ha hdev]
      simp
    constructor
    · intro p
      simp only [create_and_start, hf]
      split <;> simp
    · intro hcp hstty hspawn
      subst hcp
      have hfields := Bridge.start_ok_fields
        (Bridge.new path (get_next_available_port 4403 bridges) nid 115200)
        env hstty hspawn
      refine ⟨((Bridge.new path (get_next_available_port 4403 bridges)
          nid 115200).start env).1, ?_, ?_, ?_, ?_, ?_⟩
      · simp only [create_and_start, hf]
        simp only [hfields.1, if_true]
      · rw [hfields.2.1]
        rfl
      · unfold Bridge.is_running
        rw [hfields.2.2.2]
        rfl
      · rw [hfields.2.2.1]
        rfl
      · rw [hfields.2.2.1]
        exact (get_next_available_port_spec 4403 bridges).1

/-- Witness for the amended C1: with a live bridge on `/dev/a`, creating
again for `/dev/a` is rejected with that bridge's port 4403 reported;
with only a stopped bridge on `/dev/a`, the same request is accepted
and starts a bridge on the freed port 4403. -/
theorem C1_witness :
    create_and_start [liveBridgeA] "/dev/cu.usbserial-1410" none none
        envPlain
      = CreateOutcome.alreadyBridged 4403 ∧
    (∃ b1, create_and_start
        [{ liveBridgeA with process := none }] "/dev/cu.usbserial-1410"
          none none envPlain
        = CreateOutcome.started
            [{ liveBridgeA with process := none }, b1] ∧
      b1.port = 4403) := by
  constructor
  · obtain ⟨h1, _⟩ := C1_create_amended [liveBridgeA]
      "/dev/cu.usbserial-1410" none none envPlain
    obtain ⟨b0, hb0, _, _, hout⟩ := h1 ⟨liveBridgeA, by decide, rfl, rfl⟩
    have hb : b0 = liveBridgeA := by simpa using hb0
    rw [hb] at hout
    exact hout
  · obtain ⟨_, h2⟩ := C1_create_amended
      [{ liveBridgeA with process := none }] "/dev/cu.usbserial-1410"
      none none envPlain
    obtain ⟨-, h3⟩ := h2 (by decide)
    obtain ⟨b1, hout, _, _, hport, -⟩ := h3 rfl rfl rfl
    refine ⟨b1, by simpa using hout, ?_⟩
    rw [hport]
    decide

/-! ## Claims C6, C7 and C9 — the probe -/

/-- Whether the polling loop at tick `k` falls through to the next
iteration (no early `return` and no exception). -/
def loopContinues (session : Nat → PollEvent) (graceTick k : Nat) :
    Bool :=
  match session k with
  | .raise => false
  | .obs o =>
    match o.my_node_num with
    | none => true
    | some n =>
      if n = 0 then true
      else
        match resolveOwner o with
        | some _ => false
        | none => decide (k ≤ graceTick)

/-- One loop iteration that falls through advances the tick and
consumes one unit of fuel. -/
theorem probeLoop_step (session : Nat → PollEvent) (g k fuel : Nat)
    (h : loopContinues session g k = true) :
    probeLoop session g k (fuel + 1) = probeLoop session g (k + 1) fuel := by
  unfold loopContinues at h
  cases hs : session k with
  | raise => rw [hs] at h; exact absurd h (by simp)
  | obs o =>
    rw [hs] at h
    dsimp only at h
    cases hn : o.my_node_num with
    | none => simp only [probeLoop, hs, hn]
    | some n =>
      rw [hn] at h
      dsimp only at h
      by_cases hz : n = 0
      · simp only [probeLoop, hs, hn]
        rw [if_pos hz]
      · rw [if_neg hz] at h
        cases ho : resolveOwner o with
        | some w => rw [ho] at h; exact absurd h (by simp)
        | none =>
          rw [ho] at h
          have hk : k ≤ g := of_decide_eq_true h
          simp only [probeLoop, hs, hn, ho]
          rw [if_neg hz, if_neg (by omega)]

/-- Running the loop past a stretch of fall-through ticks. -/
theorem probeLoop_advance (session : Nat → PollEvent) (g : Nat) :
    ∀ d k fuel,
      (∀ j, k ≤ j → j < k + d → loopContinues session g j = true) →
      probeLoop session g k (d + fuel) = probeLoop session g (k + d) fuel := by
  intro d
  induction d with
  | zero => intro k fuel _; simp
  | succ n ih =>
    intro k fuel hcont
    have h0 : loopContinues session g k = true :=
      hcont k le_rfl (by omega)
    rw [show (n + 1) + fuel = (n + fuel) + 1 from by omega]
    rw [probeLoop_step session g k (n + fuel) h0]
    rw [ih (k + 1) fuel (fun j hj1 hj2 => hcont j (by omega) (by omega))]
    congr 1
    omega

/-- Claim C6: consider a probe run whose session falls through every
tick before `k`, and at tick `k` (inside the timeout window) reports a
truthy node number `n`.  If an owner is resolvable at that tick the
probe returns immediately at tick `k` with `identifier (owner)`; if no
owner is resolvable and more than the grace window has elapsed
(`graceTick < k`), the probe returns the bare identifier at tick `k` —
before the full timeout — closing the session either way. -/
theorem C6_probe_two_phase (session : Nat → PollEvent)
    (timeoutTicks graceTick k n : Nat) (o : IfaceObs)
    (hk : k < timeoutTicks)
    (hobs : session k = PollEvent.obs o)
    (hnum : o.my_node_num = some n) (hn : n ≠ 0)
    (hprev : ∀ j, j < k → loopContinues session graceTick j = true) :
    (∀ w, resolveOwner o = some w →
      query_meshtastic_info true session timeoutTicks graceTick =
        { result := some (renderNodeId n ++ " (" ++ w ++ ")"),
          opened := true, closed := true, retTick := some k }) ∧
    (resolveOwner o = none → graceTick < k →
      query_meshtastic_info true session timeoutTicks graceTick =
        { result := some (renderNodeId n), opened := true,
          closed := true, retTick := some k }) := by
  have hadv : probeLoop session graceTick 0 timeoutTicks
      = probeLoop session graceTick k (timeoutTicks - k) := by
    have h := probeLoop_advance session graceTick k 0 (timeoutTicks - k)
      (fun j _ hj2 => hprev j (by omega))
    rw [show k + (timeoutTicks - k) = timeoutTicks from by omega] at h
    rw [show (0 : Nat) + k = k from by omega] at h
    exact h
  obtain ⟨m, hm⟩ : ∃ m, timeoutTicks - k = m + 1 :=
    ⟨timeoutTicks - k - 1, by omega⟩
  constructor
  · intro w hw
    have hrun : probeLoop session graceTick 0 timeoutTicks
        = ProbeOut.found k (renderNodeId n ++ " (" ++ w ++ ")") := by
      rw [hadv, hm]
      simp only [probeLoop, hobs, hnum, hw]
      rw [if_neg hn]
    simp [query_meshtastic_info, hrun]
  · intro hw hg
    have hrun : probeLoop session graceTick 0 timeoutTicks
        = ProbeOut.found k (renderNodeId n) := by
      rw [hadv, hm]
      simp only [probeLoop, hobs, hnum, hw]
      rw [if_neg hn, if_pos hg]
    simp [query_meshtastic_info, hrun]

/-- A session that stays silent until tick 30 (elapsed time 6) and then
reports the bare node number `0x3c7f9d4e`, never an owner. -/
def demoSession : Nat → PollEvent := fun k =>
  if k < 30 then PollEvent.obs ⟨none, none, none, none, none⟩
  else PollEvent.obs ⟨some 0x3c7f9d4e, none, none, none, none⟩

/-- Witness for C6: on `demoSession` with the default windows (timeout
50 ticks = 10 units, grace 25 ticks = 5 units) the probe returns the
bare identifier `!3c7f9d4e` at tick 30 (t = 6), well before the
timeout, and closes the session. -/
theorem C6_witness :
    query_meshtastic_info true demoSession 50 25 =
      { result := some "!3c7f9d4e", opened := true, closed := true,
        retTick := some 30 } := by
  have h := (C6_probe_two_phase demoSession 50 25 30 0x3c7f9d4e
    ⟨some 0x3c7f9d4e, none, none, none, none⟩ (by omega) (by decide)
    rfl (by omega) (by decide)).2 rfl (by omega)
  rw [h]
  have hid : renderNodeId 0x3c7f9d4e = "!3c7f9d4e" := by decide
  rw [hid]

/-- A session whose very first poll raises inside the library (after
the `SerialInterface` constructor succeeded). -/
def raisingSession : Nat → PollEvent := fun _ => PollEvent.raise

/-- A session that never reports anything, driving the probe to its
timeout return path. -/
def quietSession : Nat → PollEvent :=
  fun _ => PollEvent.obs ⟨none, none, none, none, none⟩

/-- Claim C7 (code bug): the three deliberate return paths close the
session (shown here for the timeout path), but an exception raised
after the session was opened reaches the catch-all handler, which
returns `None` **without** closing the session — the device's serial
line is left busy. -/
theorem C7_session_leak :
    (query_meshtastic_info true raisingSession 50 25).opened = true ∧
    (query_meshtastic_info true raisingSession 50 25).closed = false ∧
    (query_meshtastic_info true raisingSession 50 25).result = none ∧
    (query_meshtastic_info true quietSession 50 25).closed = true := by
  exact ⟨rfl, rfl, rfl, by decide⟩

/-- A session that immediately reports node number `0x3c7f9d4e` with
owner long-name `Alice`. -/
def ownerSession : Nat → PollEvent :=
  fun _ => PollEvent.obs ⟨some 0x3c7f9d4e, some "Alice", none, none, none⟩

/-- The bridge `main` constructs for that device:
`Bridge(device.path, port, node_id=device.node_name)` where
`node_name` is the probe's owner-decorated string. -/
def bridgeWithOwnerId : Bridge :=
  Bridge.new "/dev/cu.usbmodem1101" 4403 (some "!3c7f9d4e (Alice)") 115200

/-- Claim C9 (code bug): when an owner was learned, the probe returns
`"!3c7f9d4e (Alice)"` and that whole string becomes the bridge's
`node_id`; `_start_mdns` then registers the hostname
`meshtastic_ice).local.` — the last four characters of the decorated
string, not the identifier's hex tail `9d4e` that the code's own
comment (`!3c7f9d4e -> 9d4e`) promises and that the owner-less case
produces. -/
theorem C9_mdns_name :
    (query_meshtastic_info true ownerSession 50 25).result
      = some "!3c7f9d4e (Alice)" ∧
    (bridgeWithOwnerId.start ⟨true, true, true, .ok⟩).2.1
      = some ⟨"meshtastic_ice).local.", 4403⟩ ∧
    shortId "!3c7f9d4e" = "9d4e" ∧
    shortId "!3c7f9d4e (Alice)" = "ice)" := by
  exact ⟨by decide, by decide, by decide, by decide⟩

end Meshbridge
